import Mathlib

/-!
Verification of the key-management core of a multi-chain wallet manager
(BSC / Solana).  The TypeScript sources are embedded shallowly:

* pure string / list manipulation is translated directly;
* the external cryptographic libraries (crypto-js, ethers, @solana/web3.js,
  bip39, Node buffers) are modelled as records of pure functions
  ("prims"), with the algebraic facts the code relies on (round-trips)
  packaged as `Sound` predicates;
* randomness (salts, IVs, fresh keypairs, uuids, mnemonic entropy) is made
  explicit as function arguments, so every operation is a deterministic
  function of its inputs and its random tape;
* `throw` is modelled by `Except String`, with the thrown message strings
  reproduced from the source.

Bytes are modelled as `ZMod 256`.  JavaScript string length counts UTF-16
code units; `jsLength` reproduces that count (astral codepoints count 2).
-/

set_option maxRecDepth 8192

abbrev Byte := ZMod 256

/-- The two supported networks (TS union type "BSC" | "Solana"). -/
inductive Network where
  | BSC
  | Solana
deriving DecidableEq

/-- JavaScript `s.length`: number of UTF-16 code units. -/
def jsLength (s : String) : Nat :=
  s.data.foldl (fun n c => n + (if c.toNat < 65536 then 1 else 2)) 0

/-- JS regex test `/[A-Z]/.test(s)`. -/
def hasUpper (s : String) : Bool :=
  s.data.any fun c => 'A' ≤ c && c ≤ 'Z'

/-- JS regex test `/[a-z]/.test(s)`. -/
def hasLower (s : String) : Bool :=
  s.data.any fun c => 'a' ≤ c && c ≤ 'z'

/-- JS regex test `/[0-9]/.test(s)` (also `/\d/`). -/
def hasDigit (s : String) : Bool :=
  s.data.any fun c => '0' ≤ c && c ≤ '9'

/-- JS regex test `/[^A-Za-z0-9]/.test(s)`: some character outside the three
ASCII alphanumeric ranges. -/
def hasSymbol (s : String) : Bool :=
  s.data.any fun c =>
    !(('A' ≤ c && c ≤ 'Z') || ('a' ≤ c && c ≤ 'z') || ('0' ≤ c && c ≤ '9'))

/-- JS `s.trim() === ''`: every character is whitespace (true for the empty
string as well). -/
def isBlank (s : String) : Bool :=
  s.data.all fun c => c.isWhitespace

/-- JS `s.toLowerCase()` restricted to ASCII (character-by-character), kept
kernel-reducible for concrete evaluation. -/
def jsToLower (s : String) : String :=
  String.mk (s.data.map Char.toLower)

/-- WalletManager.validatePasswordStrength (WalletManager.ts, lines 224-231):
the hard gate used by the constructor.  Length below 10, or a missing
character class, rejects. -/
def validatePasswordStrengthGate (password : String) : Bool :=
  if jsLength password < 10 then false
  else if !hasUpper password then false
  else if !hasLower password then false
  else if !hasDigit password then false
  else if !hasSymbol password then false
  else true

def msgNeedPassword : String := "必须提供加密密码"

def msgWeakPassword : String :=
  "密码强度不足：需要至少10个字符，包含大写字母、小写字母、数字和特殊字符"

/-- WalletManager constructor (WalletManager.ts, lines 205-217).  Returns the
stored `encryptionKey` on success, the thrown message on failure.  The JS
test `!encryptionPassword || encryptionPassword.trim() === ''` is the
falsy-or-blank check. -/
def walletManagerNew (encryptionPassword : String) : Except String String :=
  if encryptionPassword = "" || isBlank encryptionPassword then
    .error msgNeedPassword
  else if !validatePasswordStrengthGate encryptionPassword then
    .error msgWeakPassword
  else
    .ok encryptionPassword

/-- The five ordinal labels of the advisory scorers. -/
def strengthLabels : List String := ["非常弱", "弱", "中等", "强", "非常强"]

/-- cryptoUtils.validatePasswordStrength (src/shared/cryptoUtils.ts, lines
125-143): the advisory scorer of the named shared module.  One increment
for each of: length at least 8, length at least 12, both lower and upper
case present, a digit present, a symbol present; clamped to 4. -/
def validatePasswordStrengthScore (password : String) : Nat × String :=
  let score :=
    (if 8 ≤ jsLength password then 1 else 0)
    + (if 12 ≤ jsLength password then 1 else 0)
    + (if hasLower password && hasUpper password then 1 else 0)
    + (if hasDigit password then 1 else 0)
    + (if hasSymbol password then 1 else 0)
  (min score 4, strengthLabels.getD (min score 4) (""))

/-- The raw advisory score of the named shared module, written out from the
amended description, for comparison with the source translation. -/
def advisoryScoreSpec (password : String) : Nat :=
  min ((if 8 ≤ jsLength password then 1 else 0)
    + (if 12 ≤ jsLength password then 1 else 0)
    + (if hasLower password && hasUpper password then 1 else 0)
    + (if hasDigit password then 1 else 0)
    + (if hasSymbol password then 1 else 0)) 4

/-- COMMON_PASSWORDS of the enhanced scorer (cryptoUtils, enhanced copy). -/
def commonPasswords : List String :=
  ["password", "password123", "123456", "12345678", "123456789",
   "qwerty", "abc123", "monkey", "1234567", "letmein",
   "trustno1", "dragon", "baseball", "iloveyou", "master",
   "sunshine", "ashley", "bailey", "passw0rd", "shadow",
   "admin", "welcome", "login", "princess", "solo"]

/-- JS regex test `/(.)\1{2,}/.test(s)`: three or more consecutive identical
characters. -/
def hasTripleRepeat : List Char → Bool
  | a :: b :: c :: rest => (a = b && b = c) || hasTripleRepeat (b :: c :: rest)
  | _ => false

/-- Is `t` a prefix of `s` (over character lists)? -/
def listStartsWith : List Char → List Char → Bool
  | [], _ => true
  | _ :: _, [] => false
  | p :: ps, c :: cs => p = c && listStartsWith ps cs

/-- Is `t` a contiguous substring of `s` (over character lists)? -/
def listContainsSub (t : List Char) : List Char → Bool
  | [] => t.isEmpty
  | c :: cs => listStartsWith t (c :: cs) || listContainsSub t cs

/-- The ascending three-character runs of the enhanced scorer regex. -/
def ascendingRuns : List String :=
  ["012", "123", "234", "345", "456", "567", "678", "789",
   "abc", "bcd", "cde", "def", "efg", "fgh", "ghi", "hij", "ijk", "jkl",
   "klm", "lmn", "mno", "nop", "opq", "pqr", "qrs", "rst", "stu", "tuv",
   "uvw", "vwx", "wxy", "xyz"]

/-- Case-insensitive test for one of the ascending runs (regex with i flag). -/
def hasAscendingRun (password : String) : Bool :=
  ascendingRuns.any fun t => listContainsSub t.data (jsToLower password).data

/-- The enhanced advisory scorer found in the second copy of cryptoUtils in
the repository (denylist, 8/12/16 tiers, class-count diversity, repeat and
ascending-run checks).  This is the function the specification describes. -/
def validatePasswordStrengthEnhanced (password : String) : Nat × String :=
  if commonPasswords.contains (jsToLower password) then
    (0, "密码过于常见")
  else
    let length := jsLength password
    let lenScore :=
      if 16 ≤ length then 3 else if 12 ≤ length then 2
      else if 8 ≤ length then 1 else 0
    let typeCount :=
      (if hasLower password then 1 else 0) + (if hasUpper password then 1 else 0)
      + (if hasDigit password then 1 else 0) + (if hasSymbol password then 1 else 0)
    let typeScore := if 4 ≤ typeCount then 2 else if 3 ≤ typeCount then 1 else 0
    let repeatScore := if hasTripleRepeat password.data then 0 else 1
    let seqScore := if hasAscendingRun password then 0 else 1
    let finalScore := min (lenScore + typeScore + repeatScore + seqScore) 4
    (finalScore, strengthLabels.getD finalScore (""))

/-- WalletManager.validateAddress (WalletManager.ts, lines 668-680).  The BSC
branch delegates to the external `ethers.isAddress`, passed as a parameter;
the Solana branch only checks that the length lies between 32 and 44. -/
def validateAddress (isAddressBSC : String → Bool) (address : String) :
    Network → Bool
  | .BSC => isAddressBSC address
  | .Solana => decide (32 ≤ jsLength address) && decide (jsLength address ≤ 44)

/-- The Base58 alphabet (excludes 0, O, I, l). -/
def base58Alphabet : List Char :=
  "123456789ABCDEFGHJKLMNPQRSTUVWXYZabcdefghijkmnopqrstuvwxyz".data

/-- A string structurally decodes as Base58 iff it is non-empty and every
character belongs to the Base58 alphabet. -/
def isBase58Str (s : String) : Bool :=
  !s.data.isEmpty && s.data.all fun c => base58Alphabet.contains c

/-- A 32-character string made of the character 0, which is outside the
Base58 alphabet but inside the accepted 32..44 length range. -/
def zeros32 : String := String.mk (List.replicate 32 ('0'))

/-- Claim C5 as stated: the Solana branch of validateAddress would also
require a successful structural Base58 decode. -/
def claimC5Statement : Prop :=
  ∀ (isAddressBSC : String → Bool) (address : String),
    validateAddress isAddressBSC address .Solana =
      (decide (32 ≤ jsLength address) && decide (jsLength address ≤ 44)
        && isBase58Str address)

/-!
The symmetric cipher (src/shared/cryptoUtils.ts).  The crypto-js library
functions are abstracted as `CryptoPrims`; the algebraic facts the source
relies on are `CryptoPrims.Sound`.  Fresh random salt and IV are explicit
arguments of `encrypt`.
-/

/-- External crypto-js primitives used by encrypt and decrypt.
`pbkdf2 password salt` is CryptoJS.PBKDF2 with 100000 iterations and a
256-bit key; `aesCbcEncrypt key iv m` / `aesCbcDecrypt key iv c` are
AES-256-CBC with PKCS7 padding (crypto-js never throws on bad padding, it
silently mangles, so decryption is total); `utf8Decode` is
`WordArray.toString(Utf8)`, which throws on malformed data (`none`). -/
structure CryptoPrims where
  pbkdf2 : String → List Byte → List Byte
  aesCbcEncrypt : List Byte → List Byte → List Byte → List Byte
  aesCbcDecrypt : List Byte → List Byte → List Byte → List Byte
  utf8Encode : String → List Byte
  utf8Decode : List Byte → Option String
  base64Encode : List Byte → String
  base64Decode : String → List Byte

/-- The facts about the external primitives that the source depends on:
decryption with the same key and IV inverts encryption, UTF-8 and Base64
round-trip, and Base64 of a non-empty byte string is non-empty. -/
structure CryptoPrims.Sound (C : CryptoPrims) : Prop where
  aes_roundtrip : ∀ key iv m, C.aesCbcDecrypt key iv (C.aesCbcEncrypt key iv m) = m
  utf8_roundtrip : ∀ s, C.utf8Decode (C.utf8Encode s) = some s
  base64_roundtrip : ∀ bs, C.base64Decode (C.base64Encode bs) = bs
  base64Encode_ne_empty : ∀ bs, bs ≠ [] → C.base64Encode bs ≠ ""

/-- cryptoUtils.encrypt (lines 15-54): reject empty inputs, derive a key by
PBKDF2 from the password and the fresh salt, AES-256-CBC encrypt the UTF-8
plaintext with the fresh IV, output Base64 of salt then IV then ciphertext.
Thrown messages are wrapped by the catch clause (加密失败). -/
def encrypt (C : CryptoPrims) (privateKey password : String)
    (salt iv : List Byte) : Except String String :=
  if privateKey = "" then .error ("加密失败: 私钥不能为空")
  else if password = "" then .error ("加密失败: 密码不能为空")
  else
    let key := C.pbkdf2 password salt
    let ciphertext := C.aesCbcEncrypt key iv (C.utf8Encode privateKey)
    .ok (C.base64Encode (salt ++ iv ++ ciphertext))

/-- cryptoUtils.decrypt (lines 62-108): reject empty inputs, Base64-decode,
split at byte offsets 16 and 32 (the source slices at word offsets 4 and 8;
one word is four bytes), re-derive the key from the supplied password and
the recovered salt, decrypt, and fail if the plaintext is malformed UTF-8
or empty.  Thrown messages are wrapped by the catch clause (解密失败). -/
def decrypt (C : CryptoPrims) (encryptedKey password : String) :
    Except String String :=
  if encryptedKey = "" then .error ("解密失败: 加密数据不能为空")
  else if password = "" then .error ("解密失败: 密码不能为空")
  else
    let combined := C.base64Decode encryptedKey
    let salt := combined.take 16
    let iv := (combined.drop 16).take 16
    let ciphertext := combined.drop 32
    let key := C.pbkdf2 password salt
    let decrypted := C.aesCbcDecrypt key iv ciphertext
    match C.utf8Decode decrypted with
    | none => .error ("解密失败: Malformed UTF-8 data")
    | some plaintext =>
      if plaintext = "" then .error ("解密失败: 解密失败，密码可能不正确")
      else .ok plaintext

/-- Claim C3 as stated: with sound primitives, decrypting an encryption of a
non-empty plaintext with a different non-empty password never produces a
value.  (Refuted: the scheme is unauthenticated.) -/
def wrongPasswordAlwaysFails : Prop :=
  ∀ (C : CryptoPrims), C.Sound →
    ∀ (P1 P2 T : String) (salt iv : List Byte) (blob : String),
      P1 ≠ P2 → P1 ≠ "" → P2 ≠ "" → T ≠ "" →
      salt.length = 16 → iv.length = 16 →
      encrypt C T P1 salt iv = .ok blob →
      (decrypt C blob P2).isOk = false

/-!
A concrete executable instantiation of the primitives, used for witnesses
and counterexamples.  The toy cipher adds the first key byte to every
plaintext byte (so it round-trips, but decryption with a wrong key
succeeds with garbage, exactly the possibility AES-CBC with PKCS7 leaves
open); the toy UTF-8 codec writes each character as three bytes; the toy
Base64 codec writes each byte as one character after a sentinel. -/

/-- Toy character encoder: three bytes per character (codepoints are below
2^21). -/
def toyStrToBytes : List Char → List Byte
  | [] => []
  | c :: cs =>
    ((c.toNat / 65536 : Nat) : Byte) :: ((c.toNat / 256 % 256 : Nat) : Byte)
      :: ((c.toNat % 256 : Nat) : Byte) :: toyStrToBytes cs

/-- Toy character decoder: recombine three bytes into one codepoint. -/
def toyBytesToChars : List Byte → List Char
  | a :: b :: c :: rest =>
    Char.ofNat (a.val * 65536 + b.val * 256 + c.val) :: toyBytesToChars rest
  | _ => []

/-- Toy UTF-8 decode: only byte strings of length divisible by three are
well-formed. -/
def toyUtf8Decode (bs : List Byte) : Option String :=
  if bs.length % 3 = 0 then some (String.mk (toyBytesToChars bs)) else none

/-- Toy Base64 encode: a sentinel character followed by one character per
byte (byte values are valid codepoints). -/
def toyBase64Encode (bs : List Byte) : String :=
  String.mk ('B' :: bs.map fun b => Char.ofNat b.val)

/-- Toy Base64 decode: drop the sentinel, one byte per character. -/
def toyBase64Decode (s : String) : List Byte :=
  match s.data with
  | [] => []
  | _ :: rest => rest.map fun c => ((c.toNat : Nat) : Byte)

/-- The toy instantiation of the crypto-js primitives. -/
def toyCrypto : CryptoPrims where
  pbkdf2 := fun password _salt => [((password.data.headD ('A')).toNat : Byte)]
  aesCbcEncrypt := fun key _iv m => m.map fun b => b + key.headD 0
  aesCbcDecrypt := fun key _iv c => c.map fun b => b - key.headD 0
  utf8Encode := fun s => toyStrToBytes s.data
  utf8Decode := toyUtf8Decode
  base64Encode := toyBase64Encode
  base64Decode := toyBase64Decode

/-- The 16-byte zero salt used by concrete witnesses. -/
def tSalt : List Byte := List.replicate 16 0

/-- The 16-byte zero IV used by concrete witnesses. -/
def tIv : List Byte := List.replicate 16 0

/-- The blob produced by the toy encryption of "Q" under password "A" with
`tSalt` and `tIv` (spelled out so that the C3 refutation is at an explicit
concrete input). -/
def c3Blob : String :=
  toyCrypto.base64Encode (tSalt ++ tIv ++
    toyCrypto.aesCbcEncrypt (toyCrypto.pbkdf2 ("A") tSalt) tIv
      (toyCrypto.utf8Encode ("Q")))

/-!
WalletManager.createWallet (WalletManager.ts, lines 239-285) and its
collaborators.  The key generators and uuid generator are external
libraries (ethers, @solana/web3.js, uuid, bip39); they are modelled as
deterministic functions of explicit entropy arguments.
-/

/-- External key-generation primitives.  `ethersCreateRandom` models
`ethers.Wallet.createRandom()` returning (address, privateKey);
`solanaKeypairGenerate` models `Keypair.generate()` followed by the Base58
address and Base64 secret-key conversions of the source, returning
(address, privateKey); `uuidv4` models the uuid library;
`bip39GenerateMnemonic strength r` models `bip39.generateMnemonic(strength)`.
Each takes its fresh entropy as an explicit argument. -/
structure KeyGenPrims where
  uuidv4 : Nat → String
  ethersCreateRandom : Nat → String × String
  solanaKeypairGenerate : Nat → String × String
  bip39GenerateMnemonic : Nat → Nat → String

/-- WalletManager.generateMnemonic (lines 580-587): word count 12 maps to
128 bits of entropy, anything else (the only other allowed value is 24)
maps to 256. -/
def generateMnemonic (G : KeyGenPrims) (wordCount : Nat) (r : Nat) : String :=
  G.bip39GenerateMnemonic (if wordCount = 12 then 128 else 256) r

/-- The object actually returned by createWallet (lines 273-280): its
fields are id, name, address, network, mnemonic, encrypted_key.  Note the
declared TypeScript interface `WalletCreationResult` instead requires a
`privateKey` field and has no `mnemonic` field. -/
structure CreateObj where
  id : String
  name : String
  address : String
  network : Network
  mnemonic : String
  encrypted_key : String
deriving DecidableEq

/-- The keys of the object literal returned by createWallet, in source
order. -/
def createObjKeys : List String :=
  ["id", "name", "address", "network", "mnemonic", "encrypted_key"]

/-- WalletManager.encryptPrivateKey (lines 608-616): delegate to
cryptoUtils.encrypt with the instance password, wrapping failures. -/
def encryptPrivateKey (C : CryptoPrims) (encryptionKey privateKey : String)
    (salt iv : List Byte) : Except String String :=
  match encrypt C privateKey encryptionKey salt iv with
  | .ok s => .ok s
  | .error e => .error ("加密私钥失败: " ++ e)

/-- WalletManager.createWallet (lines 239-285): fresh uuid, fresh keypair
for the requested network, encrypt the plaintext key under the instance
password, generate an unrelated fresh 12-word mnemonic, and return the
object {id, name, address, network, mnemonic, encrypted_key}.  `rId`,
`rKey` and `rMnem` are the independent entropy inputs of the three
library calls; `salt` and `iv` are the fresh randomness of `encrypt`. -/
def createWallet (G : KeyGenPrims) (C : CryptoPrims) (encryptionKey : String)
    (name : String) (network : Network) (rId rKey rMnem : Nat)
    (salt iv : List Byte) : Except String CreateObj :=
  let id := G.uuidv4 rId
  let ap : String × String :=
    match network with
    | .BSC => G.ethersCreateRandom rKey
    | .Solana => G.solanaKeypairGenerate rKey
  match encryptPrivateKey C encryptionKey ap.2 salt iv with
  | .error e => .error ("创建钱包失败: " ++ e)
  | .ok encrypted_key =>
    .ok { id := id, name := name, address := ap.1, network := network,
          mnemonic := generateMnemonic G 12 rMnem,
          encrypted_key := encrypted_key }

/-!
Mnemonic-based import (WalletManager.ts, lines 485-573).  The ethers HD
node is modelled by its internal byte state; the derivation functions are
abstract primitives.
-/

/-- External hierarchical-derivation primitives.  `mnemonicToSeedSync` is
bip39; `fromSeed`, `derivePath` and `nodePrivateKeyHex` model the
secp256k1 (EVM-compatible) `ethers.HDNodeWallet` API, a node being
represented by its internal bytes and `nodePrivateKeyHex` returning the
0x-prefixed hex private key of a node; `solKeypairFromSeed` models
`Keypair.fromSeed`, returning the Base58 public key and the 64-byte
secret key; `fromPhrase` models `ethers.HDNodeWallet.fromPhrase` for the
BSC path; `validateMnemonic` is bip39. -/
structure HDPrims where
  mnemonicToSeedSync : String → List Byte
  fromSeed : List Byte → List Byte
  derivePath : List Byte → String → List Byte
  nodePrivateKeyHex : List Byte → String
  solKeypairFromSeed : List Byte → String × List Byte
  fromPhrase : String → String → String × String
  validateMnemonic : String → Bool

/-- The default Solana derivation path m/44h/501h/0h/0h (apostrophes
written as escapes). -/
def solanaDefaultPath : String := "m/44\x27/501\x27/0\x27/0\x27"

/-- The default BSC derivation path m/44h/60h/0h/0/0. -/
def bscDefaultPath : String := "m/44\x27/60\x27/0\x27/0/0"

/-- One hex digit (Node Buffer hex semantics). -/
def hexVal (c : Char) : Option Nat :=
  if '0' ≤ c ∧ c ≤ '9' then some (c.toNat - 48)
  else if 'a' ≤ c ∧ c ≤ 'f' then some (c.toNat - 87)
  else if 'A' ≤ c ∧ c ≤ 'F' then some (c.toNat - 55)
  else none

/-- `Buffer.from(hex, "hex")`: consume hex-digit pairs, stopping at the
first invalid pair. -/
def hexPairsToBytes : List Char → List Byte
  | c1 :: c2 :: rest =>
    match hexVal c1, hexVal c2 with
    | some h, some l => ((h * 16 + l : Nat) : Byte) :: hexPairsToBytes rest
    | _, _ => []
  | _ => []

/-- The standard Base64 alphabet, by index. -/
def b64Chars : List Char :=
  "ABCDEFGHIJKLMNOPQRSTUVWXYZabcdefghijklmnopqrstuvwxyz0123456789+/".data

/-- Character of a sextet value. -/
def b64CharAt (n : Nat) : Char := b64Chars.getD n ('A')

/-- `Buffer.toString("base64")`, grouping bytes three at a time with
padding. -/
def nodeBase64EncodeAux : List Byte → List Char
  | b1 :: b2 :: b3 :: rest =>
    b64CharAt (b1.val / 4) :: b64CharAt (b1.val % 4 * 16 + b2.val / 16)
      :: b64CharAt (b2.val % 16 * 4 + b3.val / 64) :: b64CharAt (b3.val % 64)
      :: nodeBase64EncodeAux rest
  | [b1, b2] =>
    [b64CharAt (b1.val / 4), b64CharAt (b1.val % 4 * 16 + b2.val / 16),
     b64CharAt (b2.val % 16 * 4), '=']
  | [b1] => [b64CharAt (b1.val / 4), b64CharAt (b1.val % 4 * 16), '=', '=']
  | [] => []

/-- `Buffer.from(bytes).toString("base64")`. -/
def nodeBase64Encode (bs : List Byte) : String :=
  String.mk (nodeBase64EncodeAux bs)

/-- WalletManager.importSolanaFromMnemonic (lines 542-573): seed from the
mnemonic, an ethers (secp256k1) HD node from the seed, derive at the path
(default m/44h/501h/0h/0h — the JS `derivationPath || default` also
replaces an empty string), hex-decode the private key of the derived node
after dropping the 0x prefix, take its first 32 bytes as an Ed25519 seed,
expand with Keypair.fromSeed, and return the Base58 address and the
Base64 secret key. -/
def importSolanaFromMnemonic (H : HDPrims) (mnemonic : String)
    (derivationPath : Option String) : String × String :=
  let path :=
    match derivationPath with
    | some p => if p = "" then solanaDefaultPath else p
    | none => solanaDefaultPath
  let seed := H.mnemonicToSeedSync mnemonic
  let hdNode := H.fromSeed seed
  let derived := H.derivePath hdNode path
  let privateKeyBytes :=
    hexPairsToBytes ((H.nodePrivateKeyHex derived).data.drop 2)
  let seed32 := privateKeyBytes.take 32
  let kp := H.solKeypairFromSeed seed32
  (kp.1, nodeBase64Encode kp.2)

/-- WalletManager.importBSCFromMnemonic (lines 516-534): ethers
HDNodeWallet.fromPhrase at the path (default m/44h/60h/0h/0/0). -/
def importBSCFromMnemonic (H : HDPrims) (mnemonic : String)
    (derivationPath : Option String) : String × String :=
  let path :=
    match derivationPath with
    | some p => if p = "" then bscDefaultPath else p
    | none => bscDefaultPath
  H.fromPhrase mnemonic path

/-- WalletManager.importFromMnemonic (lines 485-508): trim and lowercase,
validate with bip39, then dispatch on the network. -/
def importFromMnemonic (H : HDPrims) (network : Network) (mnemonic : String)
    (derivationPath : Option String) : Except String (String × String) :=
  let cleanMnemonic := mnemonic.trim.toLower
  if !H.validateMnemonic cleanMnemonic then
    .error ("助记词导入失败: 无效的助记词")
  else
    match network with
    | .BSC => .ok (importBSCFromMnemonic H cleanMnemonic derivationPath)
    | .Solana => .ok (importSolanaFromMnemonic H cleanMnemonic derivationPath)

/-!
WalletManager.importSolanaPrivateKey (lines 436-476).  The source first
tries `Buffer.from(privateKey, "base64")` and falls back to JSON-array
parsing only if that throws; for string input the Node Buffer base64
decoder never throws (it skips characters outside the alphabet and
decodes what remains), so the fallback is unreachable.
-/

/-- Sextet value of a character under the Node base64 decoder (standard and
url-safe alphabets); characters outside the alphabet (including padding)
are skipped. -/
def b64DecVal (c : Char) : Option Nat :=
  if 'A' ≤ c ∧ c ≤ 'Z' then some (c.toNat - 65)
  else if 'a' ≤ c ∧ c ≤ 'z' then some (c.toNat - 71)
  else if '0' ≤ c ∧ c ≤ '9' then some (c.toNat + 4)
  else if c = '+' ∨ c = '-' then some 62
  else if c = '/' ∨ c = '_' then some 63
  else none

/-- Reassemble bytes from sextets: four sextets yield three bytes; a
trailing group of three yields two, of two yields one, of one yields
none. -/
def sextetsToBytes : List Nat → List Byte
  | a :: b :: c :: d :: rest =>
    ((a * 4 + b / 16 : Nat) : Byte) :: ((b % 16 * 16 + c / 4 : Nat) : Byte)
      :: ((c % 4 * 64 + d : Nat) : Byte) :: sextetsToBytes rest
  | [a, b] => [((a * 4 + b / 16 : Nat) : Byte)]
  | [a, b, c] =>
    [((a * 4 + b / 16 : Nat) : Byte), ((b % 16 * 16 + c / 4 : Nat) : Byte)]
  | _ => []

/-- `Buffer.from(s, "base64")`: total on strings — never throws. -/
def nodeBufferFromBase64 (s : String) : List Byte :=
  sextetsToBytes (s.data.filterMap b64DecVal)

/-- WalletManager.importSolanaPrivateKey (lines 436-476).  `fromSecretKey`
models `Keypair.fromSecretKey` followed by `publicKey.toBase58()`, `none`
modelling a throw on an inconsistent secret key.  Because
`Buffer.from(privateKey, "base64")` never throws, the JSON-array branch
(方式2 in the source) is dead code and does not appear in the translation;
every input reaches the 64-byte length check with the bytes produced by
the lenient base64 decoder. -/
def importSolanaPrivateKey (fromSecretKey : List Byte → Option String)
    (privateKey : String) : Except String (String × String) :=
  let secretKey := nodeBufferFromBase64 privateKey
  if secretKey.length ≠ 64 then
    .error (("Solana私钥长度无效，应为64字节，当前为")
      ++ toString secretKey.length ++ ("字节"))
  else
    match fromSecretKey secretKey with
    | some addr => .ok (addr, nodeBase64Encode secretKey)
    | none => .error ("无效的Solana私钥")

/-- A restricted model of `JSON.parse` for inputs of the shape
[n1,n2,...,nk] with non-negative integer literals and no spaces:
enough to certify that a concrete input is a well-formed JSON integer
array.  The accumulator holds the digits of the number being read. -/
def parseIntListAux : List Char → Option Nat → Option (List Nat)
  | [], none => some []
  | [], some n => some [n]
  | c :: rest, acc =>
    if '0' ≤ c ∧ c ≤ '9' then
      parseIntListAux rest (some (acc.getD 0 * 10 + (c.toNat - 48)))
    else if c = ',' then
      match acc with
      | some n => (parseIntListAux rest none).map fun l => n :: l
      | none => none
    else none

/-- Decode a JSON integer-array literal. -/
def jsonIntArrayDecode (s : String) : Option (List Nat) :=
  match s.data with
  | '[' :: rest =>
    if rest.getLast? = some (']') then parseIntListAux rest.dropLast none
    else none
  | _ => none

/-- The failing input for C7: the JSON array of sixty-four ones. -/
def jsonArr64 : String :=
  "[" ++ String.intercalate "," (List.replicate 64 ("1")) ++ "]"

/-!
Balance queries (WalletManager.ts, lines 702-788).  The per-network
balance lookups hit the network; they are modelled as an oracle.
-/

/-- A token balance entry (interface TokenBalance).  Only the empty list is
ever produced by the modelled paths. -/
structure TokenBalance where
  symbol : String
  name : String
  balance : String
  decimals : Nat
  contractAddress : String
deriving DecidableEq

/-- A balance query result (interface BalanceResult). -/
structure BalanceResult where
  address : String
  network : Network
  nativeBalance : String
  nativeSymbol : String
  tokenBalances : List TokenBalance
deriving DecidableEq

/-- An (address, network) entry of a getBalances batch. -/
structure WalletRef where
  address : String
  network : Network
deriving DecidableEq

/-- The external balance lookups getBSCBalance and getSolanaBalance, with
`.error` modelling a throw (bad address, timeout, RPC failure...). -/
structure BalanceOracle where
  getBSCBalance : String → Except String String
  getSolanaBalance : String → Except String String

/-- WalletManager.getBalance (lines 702-749): validate the address locally,
query the oracle of the network, wrap any thrown message in 查询余额失败. -/
def getBalance (O : BalanceOracle) (isAddressBSC : String → Bool)
    (address : String) (network : Network) : Except String BalanceResult :=
  if !validateAddress isAddressBSC address network then
    .error ("查询余额失败: 无效的钱包地址")
  else
    match network with
    | .BSC =>
      match O.getBSCBalance address with
      | .ok b => .ok ⟨address, .BSC, b, "BNB", []⟩
      | .error e => .error ("查询余额失败: " ++ e)
    | .Solana =>
      match O.getSolanaBalance address with
      | .ok b => .ok ⟨address, .Solana, b, "SOL", []⟩
      | .error e => .error ("查询余额失败: " ++ e)

/-- The zero-balance placeholder of the lenient batch path (lines 773-779). -/
def zeroPlaceholder (w : WalletRef) : BalanceResult :=
  ⟨w.address, w.network, "0",
    (match w.network with | .BSC => "BNB" | .Solana => "SOL"), []⟩

/-- WalletManager.getBalances (lines 756-788): sequential iteration; a
failing entry contributes the zero placeholder instead of aborting.  (The
inter-call delay has no observable effect in the model.) -/
def getBalances (O : BalanceOracle) (isAddressBSC : String → Bool) :
    List WalletRef → List BalanceResult
  | [] => []
  | w :: rest =>
    (match getBalance O isAddressBSC w.address w.network with
     | .ok b => b
     | .error _ => zeroPlaceholder w) :: getBalances O isAddressBSC rest

/-!
Concrete toy instantiations of the remaining external libraries, used by
witnesses, counterexamples and code-bug evaluations.
-/

/-- A toy instantiation of the key generators: every generated value
records which entropy produced it. -/
def toyGen : KeyGenPrims where
  uuidv4 := fun r => ("uuid-") ++ toString r
  ethersCreateRandom := fun r => (("0xAddr") ++ toString r, ("0xKey") ++ toString r)
  solanaKeypairGenerate := fun r => (("SolAddr") ++ toString r, ("U29s") ++ toString r)
  bip39GenerateMnemonic := fun strength r =>
    ("mnemonic-") ++ toString strength ++ ("-") ++ toString r

/-- A toy instantiation of the HD-derivation primitives. -/
def toyHD : HDPrims where
  mnemonicToSeedSync := fun s => toyStrToBytes s.data
  fromSeed := fun seed => seed
  derivePath := fun node path => node ++ toyStrToBytes path.data
  nodePrivateKeyHex := fun _node =>
    ("0x00112233445566778899aabbccddeeff00112233445566778899aabbccddeeff")
  solKeypairFromSeed := fun seed32 =>
    (("SolPub") ++ toString seed32.length, seed32 ++ seed32)
  fromPhrase := fun mnemonic path => (("0xBSC-") ++ mnemonic ++ ("-") ++ path, ("0xkey"))
  validateMnemonic := fun _ => true

/-- The blob produced by the toy encryption inside the C1 evaluation of
createWallet (BSC key of entropy 2, password Str0ng!Passw0rd). -/
def c1Blob : String :=
  toyCrypto.base64Encode (tSalt ++ tIv ++
    toyCrypto.aesCbcEncrypt (toyCrypto.pbkdf2 ("Str0ng!Passw0rd") tSalt) tIv
      (toyCrypto.utf8Encode ("0xKey2")))

/-- The object returned by the concrete C10 run of createWallet
(entropies 4, 5, 6). -/
def c10Obj : CreateObj where
  id := ("uuid-4")
  name := ("独立性测试")
  address := ("0xAddr5")
  network := .BSC
  mnemonic := ("mnemonic-128-6")
  encrypted_key :=
    toyCrypto.base64Encode (tSalt ++ tIv ++
      toyCrypto.aesCbcEncrypt (toyCrypto.pbkdf2 ("Str0ng!Passw0rd") tSalt) tIv
        (toyCrypto.utf8Encode ("0xKey5")))

/-- Toy BSC address validator for the batch-balance scenario. -/
def demoIsAddressBSC : String → Bool := fun a => a = ("0xGOOD")

/-- Toy balance oracle for the batch-balance scenario. -/
def demoOracle : BalanceOracle where
  getBSCBalance := fun a => if a = ("0xGOOD") then .ok ("1.5") else .error ("服务器错误")
  getSolanaBalance := fun _ => .ok ("2")

/-- A 40-character Solana-style address (inside the 32..44 length range). -/
def demoSolAddr : String := String.mk (List.replicate 40 ('S'))

/-- The three-entry batch of the specification scenario: the middle address
is malformed. -/
def demoBatch : List WalletRef :=
  [⟨("0xGOOD"), .BSC⟩, ⟨("bad"), .BSC⟩, ⟨demoSolAddr, .Solana⟩]

/-- Decidable equality of Except values (used to evaluate concrete runs). -/
instance {ε α : Type} [DecidableEq ε] [DecidableEq α] : DecidableEq (Except ε α) := fun
  | .ok a, .ok b =>
    if h : a = b then .isTrue (by rw [h])
    else .isFalse (fun hh => by injection hh; contradiction)
  | .ok _, .error _ => .isFalse (fun h => Except.noConfusion h)
  | .error _, .ok _ => .isFalse (fun h => Except.noConfusion h)
  | .error a, .error b =>
    if h : a = b then .isTrue (by rw [h])
    else .isFalse (fun hh => by injection hh; contradiction)

/-!
Helper lemmas.
-/

theorem char_toNat_lt (c : Char) : c.toNat < 1114112 := by
  have hdef : c.toNat = c.val.toNat := rfl
  rcases c.valid with h | ⟨_, h⟩
  · have := @UInt32.toNat_lt_of_lt c.val 55296 (by decide) h
    omega
  · have := @UInt32.toNat_lt_of_lt c.val 1114112 (by decide) h
    omega

theorem char_toNat_ofNat (n : Nat) (h : n < 55296) : (Char.ofNat n).toNat = n := by
  rw [Char.ofNat, dif_pos (Or.inl (by exact_mod_cast h))]
  rfl

theorem toyBytesToChars_toyStrToBytes (l : List Char) :
    toyBytesToChars (toyStrToBytes l) = l := by
  induction l with
  | nil => rfl
  | cons ch cs ih =>
    have hlt := char_toNat_lt ch
    simp only [toyStrToBytes, toyBytesToChars, ih]
    have hval : (((ch.toNat / 65536 : Nat) : Byte)).val * 65536
        + (((ch.toNat / 256 % 256 : Nat) : Byte)).val * 256
        + (((ch.toNat % 256 : Nat) : Byte)).val = ch.toNat := by
      simp only [ZMod.val_natCast]
      omega
    rw [hval, Char.ofNat_toNat]

theorem toyStrToBytes_length (l : List Char) :
    (toyStrToBytes l).length = 3 * l.length := by
  induction l with
  | nil => rfl
  | cons ch cs ih => simp [toyStrToBytes, ih]; omega

/-- The toy primitives satisfy every algebraic fact the source relies on. -/
theorem toyCryptoSound : toyCrypto.Sound := by
  constructor
  · intro key iv m
    show (m.map fun b => b + key.headD 0).map (fun b => b - key.headD 0) = m
    rw [List.map_map]
    have hcomp : ((fun b => b - key.headD 0) ∘ fun b => b + key.headD 0)
        = (id : Byte → Byte) := by
      funext b
      simp
    rw [hcomp, List.map_id]
  · intro s
    show toyUtf8Decode (toyStrToBytes s.data) = some s
    unfold toyUtf8Decode
    rw [if_pos (by rw [toyStrToBytes_length]; omega)]
    rw [toyBytesToChars_toyStrToBytes]
  · intro bs
    show toyBase64Decode (toyBase64Encode bs) = bs
    unfold toyBase64Encode toyBase64Decode
    simp only [List.map_map]
    have hcomp : ((fun c => ((c.toNat : Nat) : Byte)) ∘ fun b : Byte => Char.ofNat b.val)
        = (id : Byte → Byte) := by
      funext b
      have hv : b.val < 256 := ZMod.val_lt b
      simp only [Function.comp_apply, char_toNat_ofNat b.val (by omega), id_eq]
      exact ZMod.natCast_rightInverse b
    rw [hcomp, List.map_id]
  · intro bs _h
    show toyBase64Encode bs ≠ ""
    unfold toyBase64Encode
    intro hc
    have := congrArg String.data hc
    simp at this

/-!
Claim theorems.
-/

/-- C2: with sound primitives, for every non-empty password P and non-empty
plaintext T (and the fresh 16-byte salt and IV that the source draws),
decrypt(encrypt(T, P), P) returns exactly T; and both operations fail with
an error rather than coercing when the plaintext, password, or blob
argument is the empty string. -/
theorem C2_roundtrip_and_empty_rejection (C : CryptoPrims) (hC : C.Sound)
    (T P : String) (hT : T ≠ "") (hP : P ≠ "")
    (salt iv : List Byte) (hs : salt.length = 16) (hi : iv.length = 16) :
    (encrypt C T P salt iv).bind (fun blob => decrypt C blob P) = .ok T
    ∧ (∀ P2 s2 i2, (encrypt C ("") P2 s2 i2).isOk = false)
    ∧ (∀ T2 s2 i2, (encrypt C T2 ("") s2 i2).isOk = false)
    ∧ (∀ P2, (decrypt C ("") P2).isOk = false)
    ∧ (∀ b, (decrypt C b ("")).isOk = false) := by
  refine ⟨?_, ?_, ?_, ?_, ?_⟩
  · have hct : salt ++ iv ++ C.aesCbcEncrypt (C.pbkdf2 P salt) iv (C.utf8Encode T)
        ≠ [] := by
      intro h
      have := congrArg List.length h
      simp [hs, hi] at this
    simp only [encrypt, if_neg hT, if_neg hP, Except.bind]
    set L := salt ++ iv ++ C.aesCbcEncrypt (C.pbkdf2 P salt) iv (C.utf8Encode T)
      with hL
    have h1 : L.take 16 = salt := by
      rw [hL, List.append_assoc]
      exact List.take_left' hs
    have h2 : (L.drop 16).take 16 = iv := by
      rw [hL, List.append_assoc, List.drop_left' hs]
      exact List.take_left' hi
    have h3 : L.drop 32 = C.aesCbcEncrypt (C.pbkdf2 P salt) iv (C.utf8Encode T) := by
      rw [hL]
      exact List.drop_left' (by simp [hs, hi])
    simp only [decrypt, if_neg (hC.base64Encode_ne_empty L hct), if_neg hP,
      hC.base64_roundtrip, h1, h2, h3, hC.aes_roundtrip, hC.utf8_roundtrip]
    rw [if_neg hT]
  · intro P2 s2 i2
    simp [encrypt, Except.isOk, Except.toBool]
  · intro T2 s2 i2
    by_cases hT2 : T2 = "" <;> simp [encrypt, hT2, Except.isOk, Except.toBool]
  · intro P2
    simp [decrypt, Except.isOk, Except.toBool]
  · intro b
    by_cases hb : b = "" <;> simp [decrypt, hb, Except.isOk, Except.toBool]

/-- Witness for C2: the round trip evaluated at the toy primitives with
plaintext "k", password "p" and the zero salt and IV. -/
theorem C2_witness :
    (encrypt toyCrypto ("k") ("p") tSalt tIv).bind
      (fun blob => decrypt toyCrypto blob ("p")) = .ok ("k") :=
  (C2_roundtrip_and_empty_rejection toyCrypto toyCryptoSound ("k") ("p")
    (by decide) (by decide) tSalt tIv (by decide) (by decide)).1

/-- C3 counterexample: the claim that decrypting with a wrong password
always fails is false.  The cipher is CBC with PKCS7 padding and carries
no authentication tag, so nothing the source relies on prevents a
wrong-key decryption from producing well-formed non-empty garbage; the
toy primitives are sound (they satisfy every round-trip fact the source
uses) yet decrypting the encryption of "Q" under password "A" with the
different password "B" succeeds and returns garbage. -/
theorem C3_counterexample : ¬ wrongPasswordAlwaysFails := by
  intro h
  have h2 := h toyCrypto toyCryptoSound ("A") ("B") ("Q") tSalt tIv c3Blob
    (by decide) (by decide) (by decide) (by decide) (by decide) (by decide) rfl
  exact absurd h2 (by decide)

/-- C3 amended: decrypting with a wrong password is not guaranteed to fail
(the scheme is unauthenticated); what the code does guarantee is that
decrypt never reports success with the empty string — an unrecoverable or
empty plaintext always raises an error. -/
theorem C3_decrypt_never_ok_empty (C : CryptoPrims) (blob password : String) :
    decrypt C blob password ≠ .ok ("") := by
  by_cases h1 : blob = ""
  · simp [decrypt, h1]
  · by_cases h2 : password = ""
    · simp [decrypt, h1, h2]
    · rcases hu : C.utf8Decode (C.aesCbcDecrypt
          (C.pbkdf2 password ((C.base64Decode blob).take 16))
          (((C.base64Decode blob).drop 16).take 16)
          ((C.base64Decode blob).drop 32)) with _ | plaintext
      · simp [decrypt, h1, h2, hu]
      · by_cases hp : plaintext = ""
        · simp [decrypt, h1, h2, hu, hp]
        · simp only [decrypt, hu]
          simp [h1, h2, hp]

/-- Witness for the amended C3 theorem at concrete inputs. -/
theorem C3_decrypt_never_ok_empty_witness :
    decrypt toyCrypto ("x") ("p") ≠ .ok ("") :=
  C3_decrypt_never_ok_empty toyCrypto ("x") ("p")

theorem gate_iff (p : String) :
    validatePasswordStrengthGate p = true ↔
      (10 ≤ jsLength p ∧ hasUpper p = true ∧ hasLower p = true
        ∧ hasDigit p = true ∧ hasSymbol p = true) := by
  unfold validatePasswordStrengthGate
  split_ifs with h1 h2 h3 h4 h5 <;> simp_all

theorem isBlank_eq_false_of_hasDigit (p : String) (h : hasDigit p = true) :
    isBlank p = false := by
  unfold hasDigit at h
  rw [List.any_eq_true] at h
  obtain ⟨c, hc, hcd⟩ := h
  rw [Bool.and_eq_true] at hcd
  obtain ⟨h0, h9⟩ := hcd
  unfold isBlank
  rw [Bool.eq_false_iff]
  intro hall
  rw [List.all_eq_true] at hall
  have hw := hall c hc
  have hw2 : ((c = (' ') ∨ c = ('\t')) ∨ c = ('\r')) ∨ c = ('\n') := by
    simpa [Char.isWhitespace] using hw
  rcases hw2 with ((h | h) | h) | h <;> subst h <;> revert h0 <;> decide

/-- C4 amended: WalletManager construction succeeds exactly when the
password has JS length at least 10 and contains an uppercase letter, a
lowercase letter, a digit and a non-alphanumeric symbol; a non-blank weak
password fails with one fixed insufficient-strength message (which lists
all four required classes and does not say which are missing), and in
particular "password123" is rejected with that message while
"Str0ng!Passw0rd" is accepted. -/
theorem C4_constructor_gate :
    (∀ p, (walletManagerNew p).isOk = true ↔
      (10 ≤ jsLength p ∧ hasUpper p = true ∧ hasLower p = true
        ∧ hasDigit p = true ∧ hasSymbol p = true))
    ∧ walletManagerNew ("password123") = .error msgWeakPassword
    ∧ walletManagerNew ("Str0ng!Passw0rd") = .ok ("Str0ng!Passw0rd") := by
  refine ⟨?_, by decide, by decide⟩
  intro p
  constructor
  · intro h
    unfold walletManagerNew at h
    split_ifs at h with hb hg
    · simp [Except.isOk, Except.toBool] at h
    · simp [Except.isOk, Except.toBool] at h
    · have hgate : validatePasswordStrengthGate p = true := by
        revert hg
        cases validatePasswordStrengthGate p <;> simp
      exact (gate_iff p).mp hgate
  · rintro ⟨h10, hU, hL, hD, hS⟩
    have hgate : validatePasswordStrengthGate p = true :=
      (gate_iff p).mpr ⟨h10, hU, hL, hD, hS⟩
    have hblank : isBlank p = false := isBlank_eq_false_of_hasDigit p hD
    have hne : p ≠ "" := by
      intro he
      rw [he] at hD
      revert hD
      decide
    unfold walletManagerNew
    rw [if_neg (by simp [hne, hblank]), if_neg (by simp [hgate])]
    rfl

/-- C4 counterexample: the error message does not name the missing
character classes.  "password123" (missing uppercase and symbol) and
"PASSWORD123" (missing lowercase and symbol) have different missing-class
sets, yet construction fails with the identical fixed message for both. -/
theorem C4_counterexample :
    walletManagerNew ("password123") = walletManagerNew ("PASSWORD123")
    ∧ hasUpper ("password123") = false ∧ hasLower ("password123") = true
    ∧ hasUpper ("PASSWORD123") = true ∧ hasLower ("PASSWORD123") = false := by
  decide

/-- C5 amended: for every string, the Solana branch of validateAddress
returns true exactly when the JS length lies between 32 and 44; there is
no structural Base58 check, so strings containing characters outside the
Base58 alphabet are accepted whenever their length is in range. -/
theorem C5_validateAddress_length_only (isAddressBSC : String → Bool)
    (address : String) :
    validateAddress isAddressBSC address .Solana = true ↔
      (32 ≤ jsLength address ∧ jsLength address ≤ 44) := by
  simp [validateAddress]

/-- C5 counterexample: the claim (length in 32..44 and structural Base58
decode) is refuted at the 32-character string of the character 0, which
the code accepts although 0 is outside the Base58 alphabet. -/
theorem C5_counterexample : ¬ claimC5Statement := by
  intro h
  have h2 := h (fun _ => false) zeros32
  revert h2
  decide

/-- C6 amended: the advisory scorer of the cited shared module awards one
increment for each of length at least 8, length at least 12, presence of
both cases, presence of a digit and presence of a symbol, clamps to
[0,4] and maps the result to the five ordinal labels; it has no 16 tier,
no repeated-character or ascending-run adjustment, and no denylist. -/
theorem C6_advisory_score (p : String) :
    validatePasswordStrengthScore p
      = (advisoryScoreSpec p, strengthLabels.getD (advisoryScoreSpec p) (""))
    ∧ (validatePasswordStrengthScore p).1 ≤ 4
    ∧ (validatePasswordStrengthScore p).2
        = strengthLabels.getD (validatePasswordStrengthScore p).1 ("") := by
  refine ⟨rfl, ?_, rfl⟩
  exact Nat.min_le_right _ 4

/-- C6 counterexample: the claim describes the enhanced scorer (with a
common-password denylist forcing score 0), which exists in a second copy
of cryptoUtils in the repository, but the cited function has no denylist:
on the denylisted password "password" the cited scorer returns 1 where
the claimed behaviour returns 0. -/
theorem C6_counterexample :
    (validatePasswordStrengthScore ("password")).1 = 1
    ∧ (validatePasswordStrengthEnhanced ("password")).1 = 0
    ∧ commonPasswords.contains ("password") = true := by
  decide

/-- C7: importing a Solana private key supplied as a JSON integer array
always fails, because Node Buffer.from(s, "base64") never throws on a
string, so the JSON-array fallback branch of the source is unreachable.
The concrete input is the well-formed JSON array of 64 integers
[1,1,...,1]; for any behaviour of Keypair.fromSecretKey the code rejects
it with the 64-byte length error (the lenient base64 decoder extracts the
64 digit characters and decodes them to 48 bytes). -/
theorem C7_json_array_import_dead_branch
    (fromSecretKey : List Byte → Option String) :
    jsonIntArrayDecode jsonArr64 = some (List.replicate 64 1)
    ∧ (List.replicate 64 1).length = 64
    ∧ (nodeBufferFromBase64 jsonArr64).length = 48
    ∧ importSolanaPrivateKey fromSecretKey jsonArr64
        = .error ("Solana私钥长度无效，应为64字节，当前为48字节") := by
  refine ⟨by decide, by decide, by decide, ?_⟩
  rfl

/-- C8: importing a Solana wallet from a valid mnemonic uses the default
path m/44h/501h/0h/0h when no path is given; the address is obtained by
deriving an ethers (secp256k1, EVM-compatible) HD node from the BIP-39
seed, hex-decoding the private key of the derived node, taking its first
32 bytes as an Ed25519 seed and expanding it with Keypair.fromSeed; and
the result is a pure function of the normalized mnemonic, path and
network, so repeated calls (and mnemonics equal after trim/lowercase)
always give the identical address. -/
theorem C8_solana_mnemonic_derivation (H : HDPrims) (m : String)
    (hValid : H.validateMnemonic (m.trim.toLower) = true) :
    importFromMnemonic H .Solana m none
      = importFromMnemonic H .Solana m (some solanaDefaultPath)
    ∧ importFromMnemonic H .Solana m none
        = .ok (importSolanaFromMnemonic H (m.trim.toLower) none)
    ∧ importSolanaFromMnemonic H (m.trim.toLower) none
        = ((H.solKeypairFromSeed ((hexPairsToBytes
              ((H.nodePrivateKeyHex (H.derivePath
                (H.fromSeed (H.mnemonicToSeedSync (m.trim.toLower)))
                solanaDefaultPath)).data.drop 2)).take 32)).1,
           nodeBase64Encode
             (H.solKeypairFromSeed ((hexPairsToBytes
               ((H.nodePrivateKeyHex (H.derivePath
                 (H.fromSeed (H.mnemonicToSeedSync (m.trim.toLower)))
                 solanaDefaultPath)).data.drop 2)).take 32)).2)
    ∧ (∀ (m2 : String) (dp : Option String), m2.trim.toLower = m.trim.toLower →
        importFromMnemonic H .Solana m2 dp = importFromMnemonic H .Solana m dp) := by
  refine ⟨?_, ?_, rfl, ?_⟩
  · simp only [importFromMnemonic, hValid, Bool.not_true, Bool.false_eq_true,
      if_false]
    rfl
  · simp only [importFromMnemonic, hValid, Bool.not_true, Bool.false_eq_true,
      if_false]
  · intro m2 dp he
    simp only [importFromMnemonic, he]

/-- Witness for C8 at the toy HD primitives and a concrete mnemonic. -/
theorem C8_witness :
    importFromMnemonic toyHD .Solana ("abandon ability able") none
      = importFromMnemonic toyHD .Solana ("abandon ability able")
          (some solanaDefaultPath) :=
  (C8_solana_mnemonic_derivation toyHD ("abandon ability able") rfl).1

/-- C9: for every oracle behaviour and every batch, getBalances returns a
list of exactly the same length and order as its input, in which an entry
whose getBalance call fails (including a malformed address) is the
zero-balance placeholder (nativeBalance "0", symbol BNB for BSC and SOL
for Solana) while other entries carry their fetched balances; the
specification scenario (three entries, the middle address malformed) is
evaluated concretely. -/
theorem C9_lenient_batch (O : BalanceOracle) (isAddressBSC : String → Bool)
    (ws : List WalletRef) :
    getBalances O isAddressBSC ws
      = ws.map (fun w =>
          match getBalance O isAddressBSC w.address w.network with
          | .ok b => b
          | .error _ => zeroPlaceholder w)
    ∧ (getBalances O isAddressBSC ws).length = ws.length
    ∧ getBalances demoOracle demoIsAddressBSC demoBatch
        = [⟨("0xGOOD"), .BSC, ("1.5"), ("BNB"), []⟩,
           zeroPlaceholder ⟨("bad"), .BSC⟩,
           ⟨demoSolAddr, .Solana, ("2"), ("SOL"), []⟩] := by
  refine ⟨?_, ?_, by decide⟩
  · induction ws with
    | nil => rfl
    | cons w rest ih => simp [getBalances, ih]
  · induction ws with
    | nil => rfl
    | cons w rest ih => simp [getBalances, ih]

/-- C1: evaluating createWallet shows that the returned object carries the
fields id, name, address, network, mnemonic and encrypted_key — there is
no privateKey field, contradicting the claim (and the declared
WalletCreationResult interface, the test suite and the callers of the
repository, which all expect the plaintext key to be returned once). -/
theorem C1_createWallet_returns_mnemonic_not_privateKey :
    createObjKeys = [("id"), ("name"), ("address"), ("network"), ("mnemonic"),
      ("encrypted_key")]
    ∧ ("privateKey") ∉ createObjKeys
    ∧ createWallet toyGen toyCrypto ("Str0ng!Passw0rd") ("测试BSC钱包") .BSC
        1 2 3 tSalt tIv
        = .ok { id := ("uuid-1"), name := ("测试BSC钱包"),
                address := ("0xAddr2"), network := .BSC,
                mnemonic := ("mnemonic-128-3"), encrypted_key := c1Blob } := by
  refine ⟨rfl, by decide, by decide⟩

/-- C10: the mnemonic in the object returned by createWallet is produced by
an independent generateMnemonic call — it is a function only of the
mnemonic entropy rMnem (never of the keypair entropy, the private key or
the address); the returned object has no privateKey field; and deriving a
wallet from the returned mnemonic does not reproduce the returned
address (concrete sound instantiation). -/
theorem C10_mnemonic_independent (G : KeyGenPrims) (C : CryptoPrims)
    (pw name : String) (network : Network) (rId rKey rMnem : Nat)
    (salt iv : List Byte) (o : CreateObj)
    (h : createWallet G C pw name network rId rKey rMnem salt iv = .ok o) :
    o.mnemonic = generateMnemonic G 12 rMnem
    ∧ ("privateKey") ∉ createObjKeys
    ∧ (∃ o2 : CreateObj,
        createWallet toyGen toyCrypto ("Str0ng!Passw0rd") ("独立性测试") .BSC
          4 5 6 tSalt tIv = .ok o2
        ∧ (importBSCFromMnemonic toyHD o2.mnemonic none).1 ≠ o2.address) := by
  refine ⟨?_, by decide, ⟨c10Obj, by decide, by decide⟩⟩
  simp only [createWallet] at h
  split at h
  · exact absurd h (by simp)
  · simp only [Except.ok.injEq] at h
    rw [← h]

/-- Witness for C10 at the toy generators, concrete entropies 4, 5, 6. -/
theorem C10_witness :
    c10Obj.mnemonic = generateMnemonic toyGen 12 6
    ∧ ("privateKey") ∉ createObjKeys
    ∧ (∃ o2 : CreateObj,
        createWallet toyGen toyCrypto ("Str0ng!Passw0rd") ("独立性测试") .BSC
          4 5 6 tSalt tIv = .ok o2
        ∧ (importBSCFromMnemonic toyHD o2.mnemonic none).1 ≠ o2.address) :=
  C10_mnemonic_independent toyGen toyCrypto ("Str0ng!Passw0rd") ("独立性测试")
    .BSC 4 5 6 tSalt tIv c10Obj (by decide)
